import Mathlib

set_option maxRecDepth 10000
set_option linter.unusedVariables false

/-!
Shallow embedding of the telegram exam-paper bot (files `bot_commands.py`,
`main.py`, `user_management.py`, `utils.py`).  SQL tables with a primary key are
modelled as finite maps (`key → Option row`); Python functions that can raise
are embedded with an `Except` result, and `try/except` blocks as matches on it.
The `utils` module calls `time.time()` without ever importing `time`, so every
evaluation of it is embedded as a raised NameError.
-/

/-- Finite-map update, modelling a single-row SQL `INSERT OR REPLACE` keyed on a
primary-key column. -/
def mapPut {κ α : Type} [DecidableEq κ] (k : κ) (v : α) (m : κ → Option α) :
    κ → Option α :=
  fun k' => if k' = k then some v else m k'

/-- Finite-map removal, modelling `DELETE FROM ... WHERE key = ?`. -/
def mapDel {κ α : Type} [DecidableEq κ] (k : κ) (m : κ → Option α) :
    κ → Option α :=
  fun k' => if k' = k then none else m k'

/-- Document record: a scraped question/answer pair. -/
structure Document where
  question : String
  answer : String
  deriving DecidableEq

/-- Row of the `users` table (`user_data.db`, created by
`user_management.init_sqlite`): columns user_id, coins, language, achievements.
The MongoDB user document carries the same fields. -/
structure User where
  user_id : Int
  coins : Int
  language : String
  achievements : String
  deriving DecidableEq

/-- Storage-level exception raised by a store driver (SQLite/Mongo). -/
inductive StoreErr where
  | storageError
  deriving DecidableEq

/-- Log lines emitted by the user_management functions. -/
inductive LogEv where
  | errorLogged
  | infoUserCreated
  | infoCoinsUpdated
  | infoLanguageUpdated
  | infoUserNotFound
  deriving DecidableEq

/-- Which stores a `get_user` call queried, in order. -/
inductive StoreEv where
  | primaryQueried
  | secondaryQueried
  deriving DecidableEq

/-- Outcome of the MongoDB `users_collection.find_one({"user_id": user_id})`
call: a document, a miss, or a raised driver exception (timeout etc.). -/
inductive PrimaryResult where
  | found (u : User)
  | notFound
  | failure

/-- The SQLite secondary store: the `users` table plus a flag saying whether
statements against this connection currently raise (connectivity/I/O failure). -/
structure SqliteDB where
  users : Int → Option User
  failing : Bool

/-- Embedding of `user_management.get_user`: the MongoDB read is wrapped in
`try/except` (a caught exception is only logged); a found document is returned
at once, otherwise — miss or failure alike — the code falls through to the
SQLite `users` table, whose read is NOT wrapped and so raises to the caller if
the secondary store fails.  Returns the result together with the stores
queried, in order. -/
def get_user (user_id : Int) (primary : Int → PrimaryResult) (db : SqliteDB) :
    Except StoreErr (Option User) × List StoreEv :=
  match primary user_id with
  | .found u => (.ok (some u), [.primaryQueried])
  | .notFound =>
      (if db.failing then .error .storageError else .ok (db.users user_id),
       [.primaryQueried, .secondaryQueried])
  | .failure =>
      (if db.failing then .error .storageError else .ok (db.users user_id),
       [.primaryQueried, .secondaryQueried])

/-- The `INSERT OR IGNORE INTO users (user_id, coins, language, achievements)
VALUES (?, 10, 'en', '[]')` statement of `create_user`: on a primary-key
conflict the row is ignored, otherwise the default row is inserted. -/
def sqlInsertIfAbsentUser (user_id : Int) (db : SqliteDB) :
    Except StoreErr (Int → Option User) :=
  if db.failing then .error .storageError
  else
    match db.users user_id with
    | some _ => .ok db.users
    | none => .ok (mapPut user_id ⟨user_id, 10, "en", "[]"⟩ db.users)

/-- Embedding of `user_management.create_user`: the insert runs inside
`try/except Exception`, which logs and swallows any storage error; the success
path logs "User created" whether or not the insert was ignored. -/
def create_user (user_id : Int) (db : SqliteDB) : SqliteDB × List LogEv :=
  match sqlInsertIfAbsentUser user_id db with
  | .ok users' => (⟨users', db.failing⟩, [.infoUserCreated])
  | .error _ => (db, [.errorLogged])

/-- The `UPDATE users SET coins = coins + ? WHERE user_id = ?` statement of
`update_coins`, returning the new table and the rowcount (0 when no row
matched). -/
def sqlUpdateCoins (user_id : Int) (coins_change : Int) (db : SqliteDB) :
    Except StoreErr ((Int → Option User) × Nat) :=
  if db.failing then .error .storageError
  else
    match db.users user_id with
    | some u =>
        .ok (mapPut user_id { u with coins := u.coins + coins_change } db.users, 1)
    | none => .ok (db.users, 0)

/-- Embedding of `user_management.update_coins`: the whole body runs inside
`try/except Exception as e: logging.error(...)`, so a storage error is logged
and swallowed and the call returns normally; the result type still ranges over
`Except` so that "the call raised to its caller" is expressible — constructing
`.error` is exactly what the body never does. -/
def update_coins (user_id : Int) (coins_change : Int) (db : SqliteDB) :
    Except StoreErr (SqliteDB × List LogEv) :=
  match sqlUpdateCoins user_id coins_change db with
  | .ok (users', rowcount) =>
      .ok (⟨users', db.failing⟩,
           [if rowcount > 0 then .infoCoinsUpdated else .infoUserNotFound])
  | .error _ => .ok (db, [.errorLogged])

/-- The `UPDATE users SET language = ? WHERE user_id = ?` statement of
`set_language`. -/
def sqlSetLanguage (user_id : Int) (language : String) (db : SqliteDB) :
    Except StoreErr ((Int → Option User) × Nat) :=
  if db.failing then .error .storageError
  else
    match db.users user_id with
    | some u => .ok (mapPut user_id { u with language := language } db.users, 1)
    | none => .ok (db.users, 0)

/-- Embedding of `user_management.set_language`: same `try/except Exception`
wrapper as `update_coins` — errors are logged and swallowed, the call returns
normally. -/
def set_language (user_id : Int) (language : String) (db : SqliteDB) :
    Except StoreErr (SqliteDB × List LogEv) :=
  match sqlSetLanguage user_id language db with
  | .ok (users', rowcount) =>
      .ok (⟨users', db.failing⟩,
           [if rowcount > 0 then .infoLanguageUpdated else .infoUserNotFound])
  | .error _ => .ok (db, [.errorLogged])

namespace Utils

/-- Row payload of the utils `cache` table (`cache.db` schema created by
`utils.init_sqlite`): the `value` TEXT column and the nullable `expire_at`
INTEGER column. -/
abbrev UCache := String → Option (String × Option Int)

/-- Exception raised from inside the utils module's own code: `utils.py` never
imports `time`, so every evaluation of `time.time()` raises
`NameError: name 'time' is not defined`. -/
inductive NameErr where
  | timeNotDefined
  deriving DecidableEq

/-- Decimal digit-string parser: `go cs acc` folds digits into `acc`, failing
on any non-digit character. -/
def pyDigitsGo : List Char → Nat → Option Nat
  | [], acc => some acc
  | c :: cs, acc =>
      if c.isDigit then pyDigitsGo cs (acc * 10 + (c.toNat - 48)) else none

/-- Python `int(...)` applied to the stored TEXT counter.  Python `int` raises
on non-numeric text, but every value `is_rate_limited` stores under a
`rate_limit:` key is a nonempty decimal numeral, on which this total
structural parse agrees. -/
def pyInt (s : String) : Int := ((pyDigitsGo s.data 0).getD 0 : Nat)

/-- Embedding of `utils.cache_data`: line 79 computes
`expire_at = int(time.time()) + expire if expire else None`.  With a falsy
`expire` (`None` or `0`) the conditional short-circuits to `None` and the
upsert stores a NULL expiry; with any truthy `expire` the evaluation of
`time.time()` raises NameError (`time` is never imported) before the INSERT
runs, so nothing is stored and the exception propagates. -/
def cache_data (key value : String) (expire : Option Int) (c : UCache) :
    Except NameErr UCache :=
  match expire with
  | some e =>
      if e = 0 then .ok (mapPut key (value, none) c)
      else .error .timeNotDefined
  | none => .ok (mapPut key (value, none) c)

/-- Embedding of `utils.delete_cached_data`: `DELETE FROM cache WHERE key = ?`. -/
def delete_cached_data (key : String) (c : UCache) : UCache := mapDel key c

/-- Embedding of `utils.get_cached_data`: a missing key returns `None`; for a
stored row, line 100 tests `expire_at is None or int(time.time()) < expire_at`
— on a NULL expiry the `or` short-circuits and the value is returned, but on
any non-NULL `expire_at` the evaluation of `time.time()` raises NameError
(`time` is never imported), so the expiry comparison and the lazy-eviction
delete at line 104 are unreachable.  The ok-result is the returned value and
the table after the call. -/
def get_cached_data (key : String) (c : UCache) :
    Except NameErr (Option String × UCache) :=
  match c key with
  | some (value, expire_at) =>
      match expire_at with
      | none => .ok (some value, c)
      | some _ => .error .timeNotDefined
  | none => .ok (none, c)

/-- The key `f"rate_limit:{user_id}"`. -/
def rateKey (user_id : Int) : String := "rate_limit:" ++ toString user_id

/-- Embedding of `utils.is_rate_limited`: reads the window row and parses its
count (line 139).  Line 142 tests `expire_at is None or int(time.time()) <
expire_at`: for a row with a NULL expiry the `or` short-circuits — the window
counts as unexpired — and a count at or above `max_requests` is denied at line
144 with no write; on every other path the code must evaluate `time.time()`
with `time` never imported and raises NameError: line 142 for any row with a
non-NULL `expire_at`, and line 154 (`expire_at = int(time.time()) +
window_seconds`) for the increment path (NULL-expiry row below the limit, or
no row at all, where the count restarts at 0).  The expired-window reset at
lines 146–148 and the `cache_data` write at line 155 are unreachable.  The
ok-result is (limited?, table after the call). -/
def is_rate_limited (user_id : Int) (max_requests window_seconds : Int)
    (c : UCache) : Except NameErr (Bool × UCache) :=
  let key := rateKey user_id
  match c key with
  | some (v, expire_at) =>
      match expire_at with
      | none =>
          if max_requests ≤ pyInt v then .ok (true, c)
          else .error .timeNotDefined
      | some _ => .error .timeNotDefined
  | none => .error .timeNotDefined

end Utils

namespace BotCommands

/-- The orchestrator cache table as created by `main.init_sqlite` on
`cache.db`: columns `(key TEXT PRIMARY KEY, value TEXT)` — no `expire_at`
column exists in this schema. -/
abbrev BotCache := String → Option String

/-- Embedding of `bot_commands.cache_data`:
`INSERT OR REPLACE INTO cache (key, value) VALUES (?, ?)`. -/
def cache_data (key value : String) (c : BotCache) : BotCache :=
  mapPut key value c

/-- Embedding of `bot_commands.get_cached_data`:
`SELECT value FROM cache WHERE key = ?`, returning `result[0] if result else
None`.  A pure read: it issues no DELETE and consults no expiry. -/
def get_cached_data (key : String) (c : BotCache) : Option String :=
  c key

/-- A later operation on the orchestrator cache.  The only statement in
`bot_commands.py` that mutates the `cache` table is the upsert in
`cache_data`; reads (`get_cached_data`) do not change the table. -/
inductive BcOp where
  | put (key value : String)
  deriving DecidableEq

/-- Effect of one cache operation on the table. -/
def applyOp (c : BotCache) : BcOp → BotCache
  | .put k v => cache_data k v c

/-- Effect of a sequence of cache operations on the table. -/
def runOps (ops : List BcOp) (c : BotCache) : BotCache :=
  ops.foldl applyOp c

/-- Whether an operation writes the given key. -/
def writesKey : BcOp → String → Bool
  | .put k _, key => k == key

/-- Failure of the document fetch after its retry budget. -/
inductive FetchErr where
  | fetchError
  deriving DecidableEq

/-- Modelled from the spec: `scrape_past_papers`, the Document Fetcher that
`handle_question` calls, is defined nowhere in `src/` (`bot_commands.py` only
calls it).  Per spec §4.4 it performs a bounded number of attempts against the
external source and either fails with a FetchError on exhaustion or returns a
possibly empty sequence of documents, never null; the outcome is determined by
the external source, carried here as the `fetch` component of the world. -/
def scrape_past_papers
    (fetch : String → String → String → Except FetchErr (List Document))
    (subject level paper : String) : Except FetchErr (List Document) :=
  fetch subject level paper

/-- Stable descending insertion by similarity score: the inserted document is
original-order-earlier than the already sorted ones, so on a tie it goes
first.  Used by the spec-modelled Matcher. -/
def insertBySim (sim : String → String → Nat) (q : String) (d : Document) :
    List Document → List Document
  | [] => [d]
  | e :: es =>
      if sim q e.question ≤ sim q d.question then d :: e :: es
      else e :: insertBySim sim q d es

/-- Stable sort, descending by similarity score, ties in original order. -/
def sortBySimDesc (sim : String → String → Nat) (q : String) :
    List Document → List Document
  | [] => []
  | d :: ds => insertBySim sim q d (sortBySimDesc sim q ds)

/-- Modelled from the spec: `find_similar_questions`, the Matcher that
`handle_question` calls, is defined nowhere in `src/`.  Per spec §4.5: called
without a threshold it returns the exact match — case-sensitive string
equality on the question field, at most one, first in source order; called
with a threshold it returns the documents whose score under the fixed
similarity function `sim` is at least the threshold, sorted descending by
score with ties in original order.  No match is the empty list, not an
error.  The spec leaves the similarity function abstract and its scores in
the unit interval; scores are represented here in hundredths (a score s in
[0, 1] is the natural number 100·s), so the spec threshold 0.8 is 80. -/
def find_similar_questions (sim : String → String → Nat) (question : String)
    (docs : List Document) (threshold : Option Nat) : List Document :=
  match threshold with
  | none => (docs.filter (fun d => d.question == question)).take 1
  | some t =>
      sortBySimDesc sim question
        (docs.filter (fun d => decide (t ≤ sim question d.question)))

/-- Exception escaping `handle_question` itself (the code before the
`try` block is unguarded). -/
inductive PyExn where
  | storageError
  | typeError
  deriving DecidableEq

/-- State touched by or visible to a `handle_question` call: the MongoDB users
collection, the SQLite `users` table, the orchestrator cache table
(`cache.db`, connection stored in `context.bot_data`), the utils-module cache
table used by the rate limiter, the external document source, the similarity
function of the Matcher, and the clock. -/
structure World where
  primary : Int → PrimaryResult
  db : SqliteDB
  botCache : BotCache
  utilsCache : Utils.UCache
  fetch : String → String → String → Except FetchErr (List Document)
  sim : String → String → Nat
  now : Int

/-- The `context.user_data` selections read by `handle_question`. -/
structure Ctx where
  subject : Option String
  level : Option String
  paper : Option String

/-- Messages `handle_question` sends back, in order. -/
inductive Reply where
  | insufficientCoins
  | completeSelectionFirst
  | cachedAnswer (a : String)
  | noPapersFound
  | exactMatch (a : String)
  | similarIntro
  | similarQuestion (q : String)
  | similarAnswer (a : String)
  | similarList (qs : List String)
  | noMatch
  | genericError
  deriving DecidableEq

/-- Observable steps of a `handle_question` run.  `rateCheck` would mark a call
to `utils.is_rate_limited`. -/
inductive HQEvent where
  | rateCheck
  | cacheRead (key : String)
  | fetchAttempt
  | debit
  deriving DecidableEq

/-- Conversation state returned by the handler: `ConversationHandler.END` or
`SELECT_SIMILAR`. -/
inductive ConvOutcome where
  | endConv
  | selectSimilar
  deriving DecidableEq

/-- Result of `handle_question` over the stores it touches. -/
structure HQCore where
  replies : List Reply
  outcome : ConvOutcome
  db : SqliteDB
  botCache : BotCache
  events : List HQEvent
  similarCtx : Option (List Document)

/-- Full result of `handle_question`: replies, returned conversation state,
the world after the call, the events, and `context.user_data
["similar_questions"]`. -/
structure HQResult where
  replies : List Reply
  outcome : ConvOutcome
  world : World
  events : List HQEvent
  similarCtx : Option (List Document)

/-- Python truthiness of the optional selection strings: `None` and `""` are
falsy, as in `if not all([subject, level, paper])`. -/
def truthyOpt (s : Option String) : Bool :=
  match s with
  | some t => !t.isEmpty
  | none => false

/-- Python `str.strip()` with no argument, as in `update.message.text.strip()`:
removes leading and trailing whitespace.  Implemented structurally over the
character list so that it evaluates on literals. -/
def pyStrip (s : String) : String :=
  ⟨((s.data.dropWhile Char.isWhitespace).reverse.dropWhile
      Char.isWhitespace).reverse⟩

/-- Prefixing of the cache-read step onto a try-block result: `handle_question`
reads the cache before the `try:` and then runs the try-block body, so the
events of the whole run are the cache read followed by the body's events. -/
def wrapTry (cache_key : String) (c : HQCore) : HQCore :=
  ⟨c.replies, c.outcome, c.db, c.botCache, .cacheRead cache_key :: c.events,
   c.similarCtx⟩

/-- The body of the `try:` block of `handle_question` (lines 160–185): scrape,
match, reply, cache and debit.  Any exception raised inside — including the
fetch failure — is caught by the `except Exception` clause, which logs and
replies with a generic error; in every case control falls through to `return
SELECT_SIMILAR`.  Events exclude the cache read, which happened before the
`try`. -/
def hqTry (question subject level paper cache_key : String)
    (uid : Int) (db : SqliteDB) (botCache : BotCache)
    (fetch : String → String → String → Except FetchErr (List Document))
    (sim : String → String → Nat) : HQCore :=
  match scrape_past_papers fetch subject level paper with
  | .error _ =>
      ⟨[.genericError], .selectSimilar, db, botCache, [.fetchAttempt], none⟩
  | .ok past_papers =>
      if past_papers.isEmpty then
        ⟨[.noPapersFound], .endConv, db, botCache, [.fetchAttempt], none⟩
      else
        match find_similar_questions sim question past_papers none with
        | m0 :: _ =>
            match update_coins uid (-1) db with
            | .ok (db', _) =>
                ⟨[.exactMatch m0.answer], .selectSimilar, db',
                 cache_data cache_key m0.answer botCache,
                 [.fetchAttempt, .debit], none⟩
            | .error _ =>
                ⟨[.exactMatch m0.answer, .genericError], .selectSimilar, db,
                 cache_data cache_key m0.answer botCache,
                 [.fetchAttempt, .debit], none⟩
        | [] =>
            match find_similar_questions sim question past_papers (some 80) with
            | s0 :: rest =>
                match update_coins uid (-1) db with
                | .ok (db', _) =>
                    ⟨[.similarIntro, .similarQuestion s0.question,
                      .similarAnswer s0.answer,
                      .similarList (((s0 :: rest).take 5).map Document.question)],
                     .selectSimilar, db',
                     cache_data cache_key s0.answer botCache,
                     [.fetchAttempt, .debit], some (s0 :: rest)⟩
                | .error _ =>
                    ⟨[.similarIntro, .similarQuestion s0.question,
                      .similarAnswer s0.answer, .genericError],
                     .selectSimilar, db,
                     cache_data cache_key s0.answer botCache,
                     [.fetchAttempt, .debit], some (s0 :: rest)⟩
            | [] =>
                match update_coins uid (-1) db with
                | .ok (db', _) =>
                    ⟨[.noMatch], .selectSimilar, db', botCache,
                     [.fetchAttempt, .debit], none⟩
                | .error _ =>
                    ⟨[.noMatch, .genericError], .selectSimilar, db, botCache,
                     [.fetchAttempt, .debit], none⟩

/-- Embedding of `bot_commands.handle_question` over the stores it touches.
In order: `get_user` (a `None` user makes `user["coins"]` raise TypeError,
unguarded); the `coins <= 0` early return; the `not all([subject, level,
paper])` early return; the cache probe on the composite key — a truthy cached
answer replies, debits one coin and ends; otherwise the `try:` block
(`hqTry`).  No call to `utils.is_rate_limited` appears anywhere in the
source of this handler. -/
def hqAux (uid : Int) (text : String) (ctx : Ctx)
    (primary : Int → PrimaryResult) (db : SqliteDB) (botCache : BotCache)
    (fetch : String → String → String → Except FetchErr (List Document))
    (sim : String → String → Nat) : Except PyExn HQCore :=
  match (get_user uid primary db).1 with
  | .error _ => .error .storageError
  | .ok none => .error .typeError
  | .ok (some user) =>
      if user.coins ≤ 0 then
        .ok ⟨[.insufficientCoins], .endConv, db, botCache, [], none⟩
      else
        let question := pyStrip text
        if !(truthyOpt ctx.subject && truthyOpt ctx.level && truthyOpt ctx.paper)
        then
          .ok ⟨[.completeSelectionFirst], .endConv, db, botCache, [], none⟩
        else
          let subject := ctx.subject.getD ""
          let level := ctx.level.getD ""
          let paper := ctx.paper.getD ""
          let cache_key :=
            question ++ ":" ++ subject ++ ":" ++ level ++ ":" ++ paper
          match get_cached_data cache_key botCache with
          | some a =>
              if !a.isEmpty then
                match update_coins uid (-1) db with
                | .ok (db', _) =>
                    .ok ⟨[.cachedAnswer a], .endConv, db', botCache,
                         [.cacheRead cache_key, .debit], none⟩
                | .error _ => .error .storageError
              else
                .ok (wrapTry cache_key
                  (hqTry question subject level paper cache_key uid db botCache
                    fetch sim))
          | none =>
              .ok (wrapTry cache_key
                (hqTry question subject level paper cache_key uid db botCache
                  fetch sim))

/-- Embedding of `bot_commands.handle_question` as a world transformer: the
handler reads and writes only the `users` table and the orchestrator cache
table; the Mongo collection, the utils cache, the external source, the
similarity function and the clock pass through untouched. -/
def handle_question (uid : Int) (text : String) (ctx : Ctx) (w : World) :
    Except PyExn HQResult :=
  (hqAux uid text ctx w.primary w.db w.botCache w.fetch w.sim).map fun c =>
    ⟨c.replies, c.outcome,
     ⟨w.primary, c.db, c.botCache, w.utilsCache, w.fetch, w.sim, w.now⟩,
     c.events, c.similarCtx⟩

/-- Events of a handler result (none when the call raised). -/
def eventsOf (r : Except PyExn HQResult) : List HQEvent :=
  match r with
  | .ok c => c.events
  | .error _ => []

/-- Whether an event is a rate-limiter invocation. -/
def isRateCheck : HQEvent → Bool
  | .rateCheck => true
  | _ => false

/-- Events of an `hqAux` result (none when the call raised). -/
def coreEventsOf (r : Except PyExn HQCore) : List HQEvent :=
  match r with
  | .ok c => c.events
  | .error _ => []

end BotCommands

/-- Secondary store whose statements all raise, with an empty users table. -/
def dbFail : SqliteDB := ⟨fun _ => none, true⟩

/-! Concrete fixtures for the handle_question claims. -/

/-- User 7 with 5 coins. -/
def u7 : User := ⟨7, 5, "en", "[]"⟩

/-- Healthy secondary store holding only user 7. -/
def db0 : SqliteDB := ⟨fun i => if i = 7 then some u7 else none, false⟩

/-- Completed subject/level/paper selections. -/
def ctx0 : BotCommands.Ctx := ⟨some "Mathematics", some "O-Level", some "Paper 1"⟩

/-- World for the no-match scenario: user 7 only in the secondary store, empty
caches, the external source returns one document whose question differs from
the asked one, and the similarity function scores everything 0. -/
def wC1 : BotCommands.World :=
  ⟨fun _ => .notFound, db0, fun _ => none, fun _ => none,
   fun _ _ _ => .ok [⟨"other question", "ans"⟩], fun _ _ => 0, 0⟩

/-- World for the insufficient-funds scenario: user 7 with balance 0. -/
def wC2 : BotCommands.World :=
  ⟨fun _ => .notFound, ⟨fun i => if i = 7 then some ⟨7, 0, "en", "[]"⟩ else none,
    false⟩, fun _ => none, fun _ => none, fun _ _ _ => .ok [], fun _ _ => 0, 0⟩

/-- World for the rate-limited scenario: the utils cache holds a saturated
rate window for user 7 — count 10 (the source default max_requests) with a
NULL expiry, the one window shape the broken limiter can actually deny rather
than crash on — and the orchestrator cache holds an answer for the asked
key. -/
def wC3 : BotCommands.World :=
  ⟨fun _ => .notFound, db0,
   mapPut "Q?:Mathematics:O-Level:Paper 1" "cached ans" (fun _ => none),
   mapPut (Utils.rateKey 7) ("10", none) (fun _ => none),
   fun _ _ _ => .ok [], fun _ _ => 0, 500⟩

/-! Helper lemmas about the finite-map model and the utils cache. -/

theorem mapPut_self {κ α : Type} [DecidableEq κ] (k : κ) (v : α)
    (m : κ → Option α) : mapPut k v m k = some v := by
  simp [mapPut]

theorem mapPut_ne {κ α : Type} [DecidableEq κ] {k k' : κ} (v : α)
    (m : κ → Option α) (h : k' ≠ k) : mapPut k v m k' = m k' := by
  simp [mapPut, h]

theorem mapDel_self {κ α : Type} [DecidableEq κ] (k : κ) (m : κ → Option α) :
    mapDel k m k = none := by
  simp [mapDel]

theorem update_coins_isOk (uid d : Int) (db : SqliteDB) :
    ∃ db' log, update_coins uid d db = .ok (db', log) := by
  unfold update_coins
  rcases h : sqlUpdateCoins uid d db with e | ⟨users', rc⟩
  · exact ⟨db, [.errorLogged], rfl⟩
  · exact ⟨⟨users', db.failing⟩, _, rfl⟩

/-- Claim C5: `create_user` is idempotent — a second call for the same id
changes nothing; a pre-existing row is never overwritten; a newly created user
has coins 10, language "en" and empty achievements. -/
theorem C5_create_user_idempotent (user_id : Int) (db : SqliteDB)
    (hf : db.failing = false) :
    ((create_user user_id (create_user user_id db).1).1
        = (create_user user_id db).1) ∧
    (∀ u, db.users user_id = some u →
      (create_user user_id db).1.users = db.users) ∧
    (db.users user_id = none →
      (create_user user_id db).1.users user_id = some ⟨user_id, 10, "en", "[]"⟩)
    := by
  rcases hdb : db.users user_id with _ | u
  · refine ⟨?_, ?_, ?_⟩
    · simp only [create_user, sqlInsertIfAbsentUser, hf, Bool.false_eq_true,
        if_false, hdb, mapPut_self]
    · intro u hu; simp at hu
    · intro _
      simp only [create_user, sqlInsertIfAbsentUser, hf, Bool.false_eq_true,
        if_false, hdb, mapPut_self]
  · refine ⟨?_, ?_, ?_⟩
    · simp only [create_user, sqlInsertIfAbsentUser, hf, Bool.false_eq_true,
        if_false, hdb]
    · intro u' _
      simp only [create_user, sqlInsertIfAbsentUser, hf, Bool.false_eq_true,
        if_false, hdb]
    · intro habs; simp at habs

/-- Claim C5 witness: creating user 7 in an empty, healthy store yields the
default row, and the double call equals the single call. -/
theorem C5_create_user_idempotent_witness :
    ((create_user 7 (create_user 7 ⟨fun _ => none, false⟩).1).1
        = (create_user 7 ⟨fun _ => none, false⟩).1) ∧
    (create_user 7 (⟨fun _ => none, false⟩ : SqliteDB)).1.users 7
        = some ⟨7, 10, "en", "[]"⟩ :=
  ⟨(C5_create_user_idempotent 7 ⟨fun _ => none, false⟩ rfl).1,
   (C5_create_user_idempotent 7 ⟨fun _ => none, false⟩ rfl).2.2 rfl⟩

/-- Claim C8: `get_user` queries the primary store first; on a primary-store
failure it falls back to the secondary store and the failure is not surfaced
(the call still returns `.ok` of whatever the secondary holds); when neither
store holds the id the call returns absent, not an error. -/
theorem C8_get_user_fallback (user_id : Int) (primary : Int → PrimaryResult)
    (db : SqliteDB) :
    ((get_user user_id primary db).2.head? = some .primaryQueried) ∧
    (primary user_id = .failure → db.failing = false →
      (get_user user_id primary db).1 = .ok (db.users user_id)) ∧
    (primary user_id = .notFound → db.failing = false →
      db.users user_id = none → (get_user user_id primary db).1 = .ok none)
    := by
  refine ⟨?_, ?_, ?_⟩
  · rcases hp : primary user_id <;> simp [get_user, hp]
  · intro hp hf
    simp [get_user, hp, hf]
  · intro hp hf habs
    simp [get_user, hp, hf, habs]

/-- Claim C8 witness: with the primary store failing and user 7 present only
in the secondary store, `get_user` returns that user with no error, having
queried the primary store first. -/
theorem C8_get_user_fallback_witness :
    ((get_user 7 (fun _ => .failure)
        ⟨fun i => if i = 7 then some ⟨7, 5, "en", "[]"⟩ else none, false⟩).2.head?
      = some .primaryQueried) ∧
    ((get_user 7 (fun _ => .failure)
        ⟨fun i => if i = 7 then some ⟨7, 5, "en", "[]"⟩ else none, false⟩).1
      = .ok (some ⟨7, 5, "en", "[]"⟩)) :=
  ⟨(C8_get_user_fallback 7 (fun _ => .failure)
      ⟨fun i => if i = 7 then some ⟨7, 5, "en", "[]"⟩ else none, false⟩).1,
   (C8_get_user_fallback 7 (fun _ => .failure)
      ⟨fun i => if i = 7 then some ⟨7, 5, "en", "[]"⟩ else none, false⟩).2.1
     rfl rfl⟩

/-- Claim C9 counterexample: on a failing secondary store the UPDATE statement
inside `update_coins` / `set_language` raises, yet both calls return normally
(`.ok`, never `.error`) with the table unchanged and the error merely logged —
the `except Exception` clause swallows it, so the failure is NOT propagated to
the caller as the claim states. -/
theorem C9_counterexample :
    sqlUpdateCoins 7 (-1) dbFail = .error .storageError ∧
    update_coins 7 (-1) dbFail = .ok (dbFail, [.errorLogged]) ∧
    sqlSetLanguage 7 "fr" dbFail = .error .storageError ∧
    set_language 7 "fr" dbFail = .ok (dbFail, [.errorLogged]) :=
  ⟨rfl, rfl, rfl, rfl⟩

/-- Claim C9 as amended: a failure of the secondary store during
`update_coins` or `set_language` is caught and logged; the call returns
normally with the users table unchanged, and the caller never observes the
error. -/
theorem C9_mutation_swallows_failure (user_id coins_change : Int)
    (language : String) (db : SqliteDB) (hf : db.failing = true) :
    update_coins user_id coins_change db = .ok (db, [.errorLogged]) ∧
    set_language user_id language db = .ok (db, [.errorLogged]) := by
  constructor
  · simp only [update_coins, sqlUpdateCoins, hf, if_true]
  · simp only [set_language, sqlSetLanguage, hf, if_true]

/-- Claim C9 witness: the amended behavior at a concrete failing store. -/
theorem C9_mutation_swallows_failure_witness :
    update_coins 9 (-3) dbFail = .ok (dbFail, [.errorLogged]) ∧
    set_language 9 "en" dbFail = .ok (dbFail, [.errorLogged]) :=
  C9_mutation_swallows_failure 9 (-3) "en" dbFail rfl

theorem runOps_preserves (k : String) (v : String) (ops : List BotCommands.BcOp) :
    ∀ c : BotCommands.BotCache, c k = some v →
      (∀ op ∈ ops, BotCommands.writesKey op k = false) →
      BotCommands.runOps ops c k = some v := by
  induction ops with
  | nil => intro c hc _; simpa [BotCommands.runOps] using hc
  | cons op ops ih =>
      intro c hc hops
      rcases op with ⟨k', v'⟩
      have hk : (k' == k) = false := hops _ (List.mem_cons_self _ _)
      have hne : k ≠ k' := fun h => by simp [h] at hk
      have : BotCommands.cache_data k' v' c k = some v := by
        simpa [BotCommands.cache_data, mapPut_ne _ _ hne] using hc
      simpa [BotCommands.runOps, BotCommands.applyOp] using
        ih (BotCommands.cache_data k' v' c) this
          (fun o ho => hops o (List.mem_cons_of_mem _ ho))

/-- Claim C10: the cache actually used by `handle_question`
(`bot_commands.cache_data` / `bot_commands.get_cached_data`, over the
two-column `cache` table created by `main.init_sqlite`) stores no expiry at
all: once a value is written for a key, every later read returns it no matter
how many further operations (and hence how much time) intervene, provided none
of them writes that key; reads never delete anything — the only mutator of
this table in `bot_commands.py` is `cache_data`, and `get_cached_data` is a
bare SELECT. -/
theorem C10_orchestrator_cache_no_expiry (k v : String)
    (c : BotCommands.BotCache) (ops : List BotCommands.BcOp)
    (h : ∀ op ∈ ops, BotCommands.writesKey op k = false) :
    BotCommands.get_cached_data k
        (BotCommands.runOps ops (BotCommands.cache_data k v c)) = some v := by
  have : BotCommands.cache_data k v c k = some v := by
    simp [BotCommands.cache_data, mapPut_self]
  exact runOps_preserves k v ops _ this h

/-- Claim C10 witness: write "a" ↦ "1", then perform two unrelated writes; the
read of "a" still returns "1". -/
theorem C10_orchestrator_cache_no_expiry_witness :
    BotCommands.get_cached_data "a"
        (BotCommands.runOps [.put "b" "2", .put "c" "3"]
          (BotCommands.cache_data "a" "1" (fun _ => none))) = some "1" :=
  C10_orchestrator_cache_no_expiry "a" "1" (fun _ => none)
    [.put "b" "2", .put "c" "3"] (by decide)

/-- Claim C2: a user whose ledger balance is ≤ 0 at the start of a lookup gets
the insufficient-coins reply and the conversation ends immediately: the world
is completely unchanged (so the balance is untouched), and no event — in
particular no fetch attempt and no debit — occurs. -/
theorem C2_insufficient_funds (uid : Int) (text : String)
    (ctx : BotCommands.Ctx) (w : BotCommands.World) (u : User)
    (hget : (get_user uid w.primary w.db).1 = .ok (some u))
    (hcoins : u.coins ≤ 0) :
    BotCommands.handle_question uid text ctx w
      = .ok ⟨[.insufficientCoins], .endConv, w, [], none⟩ := by
  unfold BotCommands.handle_question BotCommands.hqAux
  simp only [hget]
  rw [if_pos hcoins]
  rfl

/-- Claim C2 witness: user 7 with balance 0 asking a question. -/
theorem C2_insufficient_funds_witness :
    BotCommands.handle_question 7 "Q?" ctx0 wC2
      = .ok ⟨[.insufficientCoins], .endConv, wC2, [], none⟩ :=
  C2_insufficient_funds 7 "Q?" ctx0 wC2 ⟨7, 0, "en", "[]"⟩ rfl (by decide)

/-- Claim C1 counterexample: a lookup that reaches the matching step and finds
neither an exact nor a similar question (the scenario of `wC1`): the handler
does reply with the not-found message, but the debit IS applied — the balance
drops from 5 to 4 and a debit event is present — refuting the claim that the
coin balance is left unchanged on the no-match outcome. -/
theorem C1_counterexample :
    (wC1.db.users 7).map User.coins = some 5 ∧
    (BotCommands.handle_question 7 "Q?" ctx0 wC1).map
        (fun r => (r.replies, r.outcome, r.events,
          (r.world.db.users 7).map User.coins))
      = .ok ([.noMatch], .selectSimilar,
             [.cacheRead "Q?:Mathematics:O-Level:Paper 1", .fetchAttempt,
              .debit], some 4) :=
  ⟨rfl, rfl⟩

/-- Claim C1 as amended: when the matcher finds neither an exact match nor any
similar question, the handler replies with the not-found message and the
lookup terminates (moving to the similar-selection conversation state), but
`update_coins(user_id, -1)` still runs — a 1-coin debit IS applied, the
only change the counterexample forces on the claim. -/
theorem C1_no_match_debits (uid : Int) (text : String) (ctx : BotCommands.Ctx)
    (w : BotCommands.World) (u : User) (docs : List Document)
    (hget : (get_user uid w.primary w.db).1 = .ok (some u))
    (hcoins : 0 < u.coins)
    (hsel : (BotCommands.truthyOpt ctx.subject && BotCommands.truthyOpt ctx.level
        && BotCommands.truthyOpt ctx.paper) = true)
    (hmiss : BotCommands.get_cached_data
        (BotCommands.pyStrip text ++ ":" ++ ctx.subject.getD "" ++ ":"
          ++ ctx.level.getD "" ++ ":" ++ ctx.paper.getD "") w.botCache = none)
    (hfetch : w.fetch (ctx.subject.getD "") (ctx.level.getD "")
        (ctx.paper.getD "") = .ok docs)
    (hne : docs ≠ [])
    (hexact : BotCommands.find_similar_questions w.sim (BotCommands.pyStrip text)
        docs none = [])
    (hsim : BotCommands.find_similar_questions w.sim (BotCommands.pyStrip text)
        docs (some 80) = []) :
    ∃ db' log, update_coins uid (-1) w.db = .ok (db', log) ∧
      BotCommands.handle_question uid text ctx w
        = .ok ⟨[.noMatch], .selectSimilar,
               ⟨w.primary, db', w.botCache, w.utilsCache, w.fetch, w.sim, w.now⟩,
               [.cacheRead (BotCommands.pyStrip text ++ ":"
                  ++ ctx.subject.getD "" ++ ":" ++ ctx.level.getD "" ++ ":"
                  ++ ctx.paper.getD ""),
                .fetchAttempt, .debit], none⟩ := by
  obtain ⟨db', log, hup⟩ := update_coins_isOk uid (-1) w.db
  refine ⟨db', log, hup, ?_⟩
  have hde : docs.isEmpty = false := by
    cases docs with
    | nil => exact absurd rfl hne
    | cons a l => rfl
  unfold BotCommands.handle_question BotCommands.hqAux BotCommands.hqTry
    BotCommands.scrape_past_papers
  simp only [hget]
  rw [if_neg (not_le.mpr hcoins)]
  simp only [hsel, Bool.not_true, Bool.false_eq_true, if_false, hmiss, hfetch,
    hde, hexact, hsim, hup]
  rfl

/-- Claim C1 amended witness: the concrete no-match scenario of `wC1`. -/
theorem C1_no_match_debits_witness :
    ∃ db' log, update_coins 7 (-1) wC1.db = .ok (db', log) ∧
      BotCommands.handle_question 7 "Q?" ctx0 wC1
        = .ok ⟨[.noMatch], .selectSimilar,
               ⟨wC1.primary, db', wC1.botCache, wC1.utilsCache, wC1.fetch,
                wC1.sim, wC1.now⟩,
               [.cacheRead "Q?:Mathematics:O-Level:Paper 1", .fetchAttempt,
                .debit], none⟩ :=
  C1_no_match_debits 7 "Q?" ctx0 wC1 u7 [⟨"other question", "ans"⟩] rfl
    (by decide) (by decide) rfl rfl (by decide) rfl rfl

theorem hqTry_no_rateCheck (question subject level paper cache_key : String)
    (uid : Int) (db : SqliteDB) (botCache : BotCommands.BotCache)
    (fetch : String → String → String → Except BotCommands.FetchErr
      (List Document))
    (sim : String → String → Nat) :
    (BotCommands.hqTry question subject level paper cache_key uid db botCache
        fetch sim).events.any BotCommands.isRateCheck = false := by
  unfold BotCommands.hqTry
  repeat' split
  all_goals rfl

theorem hqAux_no_rateCheck (uid : Int) (text : String) (ctx : BotCommands.Ctx)
    (primary : Int → PrimaryResult) (db : SqliteDB)
    (botCache : BotCommands.BotCache)
    (fetch : String → String → String → Except BotCommands.FetchErr
      (List Document))
    (sim : String → String → Nat) :
    (BotCommands.coreEventsOf
        (BotCommands.hqAux uid text ctx primary db botCache fetch sim)).any
      BotCommands.isRateCheck = false := by
  unfold BotCommands.hqAux
  cases hcz : BotCommands.get_cached_data
      (BotCommands.pyStrip text ++ ":" ++ ctx.subject.getD "" ++ ":"
        ++ ctx.level.getD "" ++ ":" ++ ctx.paper.getD "") botCache
  all_goals simp only [hcz]
  all_goals repeat' split
  all_goals
    simp [BotCommands.coreEventsOf, BotCommands.wrapTry,
      BotCommands.isRateCheck, hqTry_no_rateCheck]

/-- Claim C3 counterexample: in `wC3` the rate limiter denies user 7
(`is_rate_limited` returns limited with the source defaults max_requests=10,
window=60 on the saturated NULL-expiry window — the only window shape it can
deny instead of crashing on), yet `handle_question` reads the cache, replies
with the cached answer, and debits a coin (balance 5 → 4) — refuting the
claim that a denied request terminates as RateLimited with no cache read and
no debit.  There is no rate-limit check before the cache check. -/
theorem C3_counterexample :
    Utils.is_rate_limited 7 10 60 wC3.utilsCache = .ok (true, wC3.utilsCache) ∧
    (BotCommands.handle_question 7 "Q?" ctx0 wC3).map
        (fun r => (r.replies, r.outcome, r.events,
          (r.world.db.users 7).map User.coins))
      = .ok ([.cachedAnswer "cached ans"], .endConv,
             [.cacheRead "Q?:Mathematics:O-Level:Paper 1", .debit], some 4) :=
  ⟨rfl, rfl⟩

/-- Claim C3 as amended: `handle_question` performs no rate-limit check at
all: its behavior is identical whatever the rate-limiter state (replacing the
utils cache component of the world changes nothing but that component of the
final world), and no run ever contains a rate-limiter invocation among its
events.  In particular no request is ever denied by rate limiting, and the
cache is read without any preceding rate-limit check. -/
theorem C3_no_rate_limit_check (uid : Int) (text : String)
    (ctx : BotCommands.Ctx) (w : BotCommands.World) (rl : Utils.UCache) :
    BotCommands.handle_question uid text ctx { w with utilsCache := rl }
      = (BotCommands.handle_question uid text ctx w).map
          (fun r => { r with world := { r.world with utilsCache := rl } }) ∧
    (BotCommands.eventsOf (BotCommands.handle_question uid text ctx w)).any
        BotCommands.isRateCheck = false := by
  constructor
  · unfold BotCommands.handle_question
    cases h : BotCommands.hqAux uid text ctx w.primary w.db w.botCache w.fetch
        w.sim <;> rfl
  · unfold BotCommands.handle_question BotCommands.eventsOf
    cases h : BotCommands.hqAux uid text ctx w.primary w.db w.botCache w.fetch
        w.sim with
    | error e => rfl
    | ok core =>
        have hc := hqAux_no_rateCheck uid text ctx w.primary w.db w.botCache
          w.fetch w.sim
        rw [h] at hc
        simpa [BotCommands.coreEventsOf] using hc

/-- Claim C4 (code bug exhibit): `utils.py` never imports `time`, so
`cache_data` with any truthy ttl (the default is `expire=3600`) raises
NameError at line 79 before inserting anything, and `get_cached_data` raises
at line 100 on any row whose `expire_at` is non-NULL — the program crashes
instead of exhibiting the claimed put-with-ttl / get-until-expiry / lazy
eviction behavior.  Only the NULL-expiry paths survive, as the last two
conjuncts show. -/
theorem C4_cache_ttl_crash :
    Utils.cache_data "k" "v" (some 3600) (fun _ => none)
      = .error .timeNotDefined ∧
    Utils.get_cached_data "k" (mapPut "k" ("v", some 3600) (fun _ => none))
      = .error .timeNotDefined ∧
    Utils.cache_data "k" "v" none (fun _ => none)
      = .ok (mapPut "k" ("v", none) (fun _ => none)) ∧
    Utils.get_cached_data "k" (mapPut "k" ("v", none) (fun _ => none))
      = .ok (some "v", mapPut "k" ("v", none) (fun _ => none)) :=
  ⟨rfl, rfl, rfl, rfl⟩

/-- Claim C6 (code bug exhibit): every `is_rate_limited` check that would have
to read or stamp the clock raises NameError (`time` is never imported), so for
a user with no prior rate window the FIRST check already crashes at line 154
instead of returning allowed, and the claimed allowed, allowed, allowed,
denied sequence never occurs.  A fresh user, a row with a non-NULL expiry, and
a NULL-expiry row below the limit all raise; only a saturated NULL-expiry row
returns (denied). -/
theorem C6_rate_limiter_crash :
    Utils.is_rate_limited 7 3 60 (fun _ => none) = .error .timeNotDefined ∧
    Utils.is_rate_limited 7 3 60
        (mapPut (Utils.rateKey 7) ("2", some 60) (fun _ => none))
      = .error .timeNotDefined ∧
    Utils.is_rate_limited 7 3 60
        (mapPut (Utils.rateKey 7) ("2", none) (fun _ => none))
      = .error .timeNotDefined ∧
    Utils.is_rate_limited 7 3 60
        (mapPut (Utils.rateKey 7) ("3", none) (fun _ => none))
      = .ok (true, mapPut (Utils.rateKey 7) ("3", none) (fun _ => none)) :=
  ⟨rfl, rfl, rfl, rfl⟩

/-- Claim C7 counterexample: a window row for user 7 holding count "1" with a
stored (non-NULL) expiry, checked with max_requests 3: the claim says such a
check increments the count by exactly 1 and leaves the stored expiry
unchanged, but the source raises NameError at utils.py line 142 — evaluating
`int(time.time())` with `time` never imported — so the call returns nothing
and writes nothing: no increment ever happens. -/
theorem C7_counterexample :
    (mapPut (Utils.rateKey 7) ("1", some 60) (fun _ => none)) (Utils.rateKey 7)
        = some ("1", some 60) ∧
    Utils.is_rate_limited 7 3 60
        (mapPut (Utils.rateKey 7) ("1", some 60) (fun _ => none))
      = .error .timeNotDefined :=
  ⟨rfl, rfl⟩

/-- Claim C7 as amended: for a check on an existing window row, only the
NULL-expiry deny path is reachable: if the stored `expire_at` is NULL (such a
window never expires) and the count is at or above max_requests, the check
returns not-allowed and the stored table is completely unchanged; a NULL-expiry
row with the count below max_requests raises NameError at line 154, and any
row with a non-NULL `expire_at` raises NameError at line 142 (`time` is never
imported) — in every raising case nothing is incremented and nothing is
written, the caller's table being untouched. -/
theorem C7_rate_limiter_frame (uid mx win : Int) (c : Utils.UCache)
    (v : String) (ea : Option Int)
    (h : c (Utils.rateKey uid) = some (v, ea)) :
    (ea = none → mx ≤ Utils.pyInt v →
      Utils.is_rate_limited uid mx win c = .ok (true, c)) ∧
    (ea = none → Utils.pyInt v < mx →
      Utils.is_rate_limited uid mx win c = .error .timeNotDefined) ∧
    (∀ t, ea = some t →
      Utils.is_rate_limited uid mx win c = .error .timeNotDefined) := by
  refine ⟨?_, ?_, ?_⟩
  · intro hea hge
    subst hea
    simp only [Utils.is_rate_limited, h, if_pos hge]
  · intro hea hlt
    subst hea
    simp only [Utils.is_rate_limited, h, if_neg (not_le.mpr hlt)]
  · intro t hea
    subst hea
    simp only [Utils.is_rate_limited, h]

/-- Claim C7 witness: the amended behavior at concrete window rows — the
saturated NULL-expiry row is denied with the table untouched, and the
counterexample's row with a stored expiry raises. -/
theorem C7_rate_limiter_frame_witness :
    Utils.is_rate_limited 7 3 60
        (mapPut (Utils.rateKey 7) ("3", none) (fun _ => none))
      = .ok (true, mapPut (Utils.rateKey 7) ("3", none) (fun _ => none)) ∧
    Utils.is_rate_limited 7 3 60
        (mapPut (Utils.rateKey 7) ("1", some 60) (fun _ => none))
      = .error .timeNotDefined :=
  ⟨(C7_rate_limiter_frame 7 3 60 _ "3" none (mapPut_self _ _ _)).1 rfl
      (by decide),
   (C7_rate_limiter_frame 7 3 60 _ "1" (some 60)
      (mapPut_self _ _ _)).2.2 60 rfl⟩
